import Mathlib

namespace SpectroNeph

/-!
# SpectroNeph firmware — formal model of the command protocol and stream scheduler

A shallow embedding of the ESP32 firmware in `firmware/src` (`protocol.cpp`,
`streaming.cpp`, `commands.cpp`, `protocol.h`, `streaming.h`, `config.h`).

Modelling conventions:
* `uint32_t` arithmetic (`millis()` deltas) is `Nat` with explicit reduction
  modulo `2^32`.
* JSON documents (ArduinoJson `JsonObject`/`JsonVariant`) are the inductive
  `JsonVal`; fields keep their C++ insertion order.
* External collaborators (the AS7341 driver, the serial transport, `ESP.*`)
  are oracles carried in the `Firmware` record; the firmware under test only
  observes their boolean results, which is all `protocol.cpp`/`streaming.cpp`
  ever branch on.
* C++ exceptions thrown by a handler and the non-returning `ESP.restart()`
  are the `HandlerStep.exn`/`HandlerStep.unknownExn`/`HandlerStep.restart`
  outcomes of a handler invocation.
-/

/-- config.h: `#define JSON_BUFFER_SIZE 2048`. -/
def JSON_BUFFER_SIZE : Nat := 2048

/-- config.h: `#define MAX_DATA_STREAMS 3`. -/
def MAX_DATA_STREAMS : Nat := 3

/-- config.h: `#define MIN_STREAM_INTERVAL_MS 10`. -/
def MIN_STREAM_INTERVAL_MS : Nat := 10

/-- config.h: `#define MAX_STREAM_INTERVAL_MS 60000`. -/
def MAX_STREAM_INTERVAL_MS : Nat := 60000

/-- config.h: `#define DEFAULT_STREAM_INTERVAL_MS 100`. -/
def DEFAULT_STREAM_INTERVAL_MS : Nat := 100

/-- config.h: `#define DEFAULT_LED_CURRENT 10`. -/
def DEFAULT_LED_CURRENT : Nat := 10

/-- config.h: `#define DEVICE_NAME "AS7341 Nephelometer"`. -/
def DEVICE_NAME : String := "AS7341 Nephelometer"

/-- config.h: `#define FIRMWARE_VERSION "0.1.0"`. -/
def FIRMWARE_VERSION : String := "0.1.0"

/-- `2^32`, the modulus of `uint32_t` arithmetic. -/
def U32 : Nat := 4294967296

/-- `uint32_t` subtraction `a - b` (two's-complement wraparound), for
`a`, `b` already in range: `millis() - stream.lastUpdateMs`. -/
def u32sub (a b : Nat) : Nat := (a % U32 + (U32 - b % U32)) % U32

/-- ArduinoJson values, as used by the firmware: untyped JSON with
insertion-ordered object members.  Floats are never produced by the code
paths modelled here, so numbers are integers. -/
inductive JsonVal where
  | null : JsonVal
  | bool (b : Bool) : JsonVal
  | num (n : Int) : JsonVal
  | str (s : String) : JsonVal
  | obj (fields : List (String × JsonVal)) : JsonVal
  | arr (items : List JsonVal) : JsonVal

/-- First-match association-list lookup (ArduinoJson member lookup and
`std::map::find` both resolve a key to at most one binding). -/
def assocFind {α : Type} : List (String × α) → String → Option α
  | [], _ => none
  | (k, v) :: rest, key => if key = k then some v else assocFind rest key

/-! ## Line Framer — the byte loop of `Protocol::update` (protocol.cpp 38-66)

The framer accumulates serial bytes into `commandBuffer`; `\r` is skipped,
`\n` terminates a record (empty records are not pushed), and bytes beyond
`JSON_BUFFER_SIZE - 1` buffered characters are silently discarded. -/

/-- The framer state: the contents of `commandBuffer[0..bufferPos)`. -/
structure Framer where
  buffer : List Char

/-- One iteration of the `while (Serial.available())` loop of
`Protocol::update` for one incoming character: returns the new buffer state
and the record pushed onto `commandQueue`, if any. -/
def feedChar (s : Framer) (c : Char) : Framer × Option (List Char) :=
  if c ≠ '\n' ∧ c ≠ '\r' then
    if s.buffer.length < JSON_BUFFER_SIZE - 1 then (⟨s.buffer ++ [c]⟩, none)
    else (s, none)
  else if c = '\n' then
    if 0 < s.buffer.length then (⟨[]⟩, some s.buffer) else (⟨[]⟩, none)
  else (s, none)

/-- Prepend an optional record to a framer run result. -/
def consRecord (r : Option (List Char)) (p : Framer × List (List Char)) :
    Framer × List (List Char) :=
  (p.1, r.toList ++ p.2)

/-- Feed a byte sequence to the framer one byte at a time, collecting the
emitted records in order. -/
def runFramer : Framer → List Char → Framer × List (List Char)
  | s, [] => (s, [])
  | s, c :: cs => consRecord (feedChar s c).2 (runFramer (feedChar s c).1 cs)

/-- The input with carriage returns removed (the framer skips `\r`). -/
def stripCR (cs : List Char) : List Char := cs.filter (fun c => c != '\r')

/-- Reinsert the newline separators: each record followed by its
terminator. -/
def joinLines : List (List Char) → List Char
  | [] => []
  | l :: ls => l ++ '\n' :: joinLines ls

/-! ## StreamingManager — streaming.cpp

`activeStreams` is a `std::map<String, DataStream>`: a finite map with at
most one binding per key.  It is modelled as an association list whose keys
stay pairwise distinct by construction (`insertStream` updates in place).
None of the properties proved below depend on the `std::map` iteration
order. -/

/-- streaming.h: `struct DataStream`.  The `params` member is declared in
the C++ struct but never assigned or read by `streaming.cpp`, so it is
omitted. -/
structure DataStream where
  type : String
  intervalMs : Nat
  lastUpdateMs : Nat
  active : Bool

deriving DecidableEq

/-- The `activeStreams` member of `StreamingManager`. -/
abbrev StreamMap := List (String × DataStream)

/-- `activeStreams.count(type) > 0` resp. `activeStreams.find(type)`. -/
def lookupStream (m : StreamMap) (t : String) : Option DataStream :=
  assocFind m t

/-- `activeStreams[type] = stream`: update in place if the key is present,
insert otherwise. -/
def insertStream : StreamMap → String → DataStream → StreamMap
  | [], t, s => [(t, s)]
  | (k, v) :: rest, t, s =>
    if t = k then (t, s) :: rest else (k, v) :: insertStream rest t s

/-- `activeStreams.erase(type)`. -/
def eraseStream (m : StreamMap) (t : String) : StreamMap :=
  m.filter (fun e => e.1 != t)

/-- The interval clamping at the top of `StreamingManager::startStream`
(streaming.cpp 55-73). -/
def clampInterval (intervalMs : Nat) : Nat :=
  if intervalMs < MIN_STREAM_INTERVAL_MS then MIN_STREAM_INTERVAL_MS
  else if intervalMs > MAX_STREAM_INTERVAL_MS then MAX_STREAM_INTERVAL_MS
  else intervalMs

/-- `StreamingManager::startStream` (streaming.cpp 52-100): clamp the
interval, reject a new type at the capacity cap, otherwise create or update
the entry with `lastUpdateMs = 0` ("force immediate update") and
`active = true`.  The `params` argument is ignored by the C++ body. -/
def startStream (m : StreamMap) (t : String) (intervalMs : Nat) :
    Bool × StreamMap :=
  if MAX_DATA_STREAMS ≤ m.length ∧ lookupStream m t = none then
    (false, m)
  else
    (true, insertStream m t ⟨t, clampInterval intervalMs, 0, true⟩)

/-- `StreamingManager::stopStream` (streaming.cpp 102-126): `false` if the
type is absent; otherwise the entry is deactivated and then erased, so the
net effect is removal. -/
def stopStream (m : StreamMap) (t : String) : Bool × StreamMap :=
  if lookupStream m t = none then (false, m)
  else (true, eraseStream m t)

/-- The keys of the map, as copied into `streamKeys` by
`StreamingManager::stopAllStreams`. -/
def streamKeys (m : StreamMap) : List String := m.map (fun e => e.1)

/-- `StreamingManager::stopAllStreams` (streaming.cpp 148-166): snapshot the
keys, then stop each one. -/
def stopAllStreams (m : StreamMap) : StreamMap :=
  (streamKeys m).foldl (fun acc t => (stopStream acc t).2) m

/-- `StreamingManager::isStreamActive`. -/
def isStreamActive (m : StreamMap) (t : String) : Bool :=
  match lookupStream m t with
  | some s => s.active
  | none => false

/-- `StreamingManager::getActiveStreams`: one `{type, interval_ms}` object
per active stream. -/
def getActiveStreams (m : StreamMap) : List JsonVal :=
  (m.filter (fun e => e.2.active)).map
    (fun e => .obj [("type", .str e.2.type), ("interval_ms", .num (e.2.intervalMs : Int))])

/-! ## JSON helpers — ArduinoJson accessors used by the firmware -/

/-- ArduinoJson `obj[key]`: the member value, or the null variant when the
key is absent or the receiver is not an object. -/
def jsonGet (v : JsonVal) (key : String) : JsonVal :=
  match v with
  | .obj fields => (assocFind fields key).getD .null
  | _ => .null

/-- ArduinoJson `obj.containsKey(key)`. -/
def jsonHasKey (v : JsonVal) (key : String) : Bool :=
  match v with
  | .obj fields => (assocFind fields key).isSome
  | _ => false

/-- The members of an object value (used by `getConfiguration`, which
appends the sensor configuration fields into a response object). -/
def jsonObjFields (v : JsonVal) : List (String × JsonVal) :=
  match v with
  | .obj fields => fields
  | _ => []

mutual

/-- `serializeJson` on one value. -/
def serializeVal : JsonVal → String
  | .null => "null"
  | .bool b => if b then "true" else "false"
  | .num n => toString n
  | .str s => "\"" ++ s ++ "\""
  | .obj fields => "\x7b" ++ serializeFields fields ++ "\x7d"
  | .arr items => "[" ++ serializeItems items ++ "]"

/-- `serializeJson` on an object's member list. -/
def serializeFields : List (String × JsonVal) → String
  | [] => ""
  | [(k, v)] => "\"" ++ k ++ "\":" ++ serializeVal v
  | (k, v) :: rest => "\"" ++ k ++ "\":" ++ serializeVal v ++ "," ++ serializeFields rest

/-- `serializeJson` on an array's item list. -/
def serializeItems : List JsonVal → String
  | [] => ""
  | [v] => serializeVal v
  | v :: rest => serializeVal v ++ "," ++ serializeItems rest

end

/-- ArduinoJson `as<String>()` for the variants the firmware can receive.
A string passes through; numbers and booleans stringify; a null (absent)
variant stringifies as `"null"`. -/
def jsonAsString (v : JsonVal) : String :=
  match v with
  | .str s => s
  | .num n => toString n
  | .bool b => if b then "true" else "false"
  | .null => "null"
  | v => serializeVal v

/-- ArduinoJson `as<int>()`: numbers pass through, everything else on the
paths modelled here yields 0 (the default for absent fields). -/
def jsonAsInt (v : JsonVal) : Int :=
  match v with
  | .num n => n
  | _ => 0

/-- ArduinoJson `as<uint32_t>()` with two's-complement wraparound. -/
def jsonAsUInt32 (v : JsonVal) : Nat :=
  match v with
  | .num n => (n % (U32 : Int)).toNat
  | _ => 0

/-- ArduinoJson `as<uint8_t>()`. -/
def jsonAsUInt8 (v : JsonVal) : Nat :=
  match v with
  | .num n => (n % 256).toNat
  | _ => 0

/-- ArduinoJson `as<bool>()`. -/
def jsonAsBool (v : JsonVal) : Bool :=
  match v with
  | .bool b => b
  | .num n => n != 0
  | _ => false

/-! ## Firmware world state

One record collects the protocol-visible state (streams, LED flags, the
restart flag) together with the oracles for the external collaborators:
the AS7341 driver, the serial transport and the `ESP` runtime.  The
firmware only ever branches on the boolean results of those collaborators,
so booleans are all that needs to be modelled. -/

structure Firmware where
  /-- `millis()` at the current tick. -/
  nowMs : Nat
  /-- `as7341.isConnected()`. -/
  sensorConnected : Bool
  /-- result of `as7341.begin()`. -/
  sensorBeginOk : Bool
  /-- result of `as7341.readSpectralData(...)`. -/
  readOk : Bool
  /-- result of `protocol.sendData(...)` (serial write succeeds). -/
  sendOk : Bool
  /-- result of `as7341.configure(...)`. -/
  configureOk : Bool
  /-- result of `as7341.setLed(...)`. -/
  setLedOk : Bool
  /-- result of `as7341.setExternalLed(...)`. -/
  setExtLedOk : Bool
  /-- `ESP.getSdkVersion()`. -/
  sdkVersion : String
  /-- `ESP.getCpuFreqMHz()`. -/
  cpuFreqMHz : Nat
  /-- `ESP.getFlashChipSize() / 1024`. -/
  flashSizeKB : Nat
  /-- `ESP.getFreeHeap()`. -/
  freeHeap : Nat
  /-- the fields written by `as7341.getConfiguration(...)`. -/
  sensorConfig : JsonVal
  /-- the channel fields written by a successful `readSpectralData`. -/
  readData : JsonVal
  /-- `StreamingManager::activeStreams`. -/
  streams : StreamMap
  /-- onboard LED state held by the driver. -/
  ledOn : Bool
  /-- external LED state held by the driver. -/
  externalLedOn : Bool
  /-- set when `ESP.restart()` has been invoked. -/
  restarted : Bool

/-- `as7341.setLed(enable, ...)`: driver call; the stored LED state changes
when the driver reports success. -/
def setLedFw (fw : Firmware) (enable : Bool) : Firmware × Bool :=
  (if fw.setLedOk then { fw with ledOn := enable } else fw, fw.setLedOk)

/-- `as7341.setExternalLed(enable)`. -/
def setExternalLedFw (fw : Firmware) (enable : Bool) : Firmware × Bool :=
  (if fw.setExtLedOk then { fw with externalLedOn := enable } else fw,
    fw.setExtLedOk)

/-! ## Stream scheduler tick — `StreamingManager::update` (streaming.cpp 24-50) -/

/-- A `{"data": ..., "type": ..., "timestamp": ...}` line sent by
`Protocol::sendData`. -/
structure Emission where
  type : String
  timestamp : Nat
  data : JsonVal

/-- `StreamingManager::updateAs7341Stream` (streaming.cpp 185-219): reports
failure without emitting on a disconnected sensor, a failed spectral read,
or a failed transport write; on success one data envelope is emitted. -/
def updateAs7341Stream (fw : Firmware) : Bool × List Emission :=
  if !fw.sensorConnected then (false, [])
  else if !fw.readOk then (false, [])
  else if !fw.sendOk then (false, [])
  else (true, [⟨"as7341", fw.nowMs, fw.readData⟩])

/-- `StreamingManager::updateStream` (streaming.cpp 168-183): dispatch on
the stream type; unknown types report failure. -/
def updateStream (fw : Firmware) (s : DataStream) : Bool × List Emission :=
  if s.type = "as7341" then updateAs7341Stream fw else (false, [])

/-- The loop body of `StreamingManager::update` for one stream: skip
inactive streams, fire when `currentTime - lastUpdateMs >= intervalMs`
(uint32 arithmetic), and advance `lastUpdateMs` to `currentTime` only when
the producer reports success. -/
def tickOne (fw : Firmware) (s : DataStream) : DataStream × List Emission :=
  if !s.active then (s, [])
  else if s.intervalMs ≤ u32sub fw.nowMs s.lastUpdateMs then
    if (updateStream fw s).1 then
      ({ s with lastUpdateMs := fw.nowMs }, (updateStream fw s).2)
    else (s, (updateStream fw s).2)
  else (s, [])

/-- `StreamingManager::update`: one scheduler tick over all streams, with
`currentTime = millis()` read once at the top. -/
def tickStreams (fw : Firmware) : StreamMap → StreamMap × List Emission
  | [] => ([], [])
  | (k, s) :: rest =>
    ((k, (tickOne fw s).1) :: (tickStreams fw rest).1,
      (tickOne fw s).2 ++ (tickStreams fw rest).2)

/-! ## Command dispatcher — `Protocol::processCommand` (protocol.cpp 153-217) -/

/-- protocol.h 20-29: `enum class StatusCode`. -/
inductive StatusCode where
  | SUCCESS | INVALID_COMMAND | INVALID_PARAMS | EXECUTION_ERROR
  | TIMEOUT | BUSY | NOT_IMPLEMENTED

deriving DecidableEq

/-- `static_cast<int>(status)` as written into the `status` field. -/
def StatusCode.toNat : StatusCode → Nat
  | .SUCCESS => 0
  | .INVALID_COMMAND => 1
  | .INVALID_PARAMS => 2
  | .EXECUTION_ERROR => 3
  | .TIMEOUT => 4
  | .BUSY => 5
  | .NOT_IMPLEMENTED => 6

/-- protocol.h 34-39: `enum class ResponseType`. -/
inductive ResponseType where
  | ACK | DATA | ERROR

deriving DecidableEq

/-- The `resp` field text chosen by the switch in `Protocol::sendResponse`
(protocol.cpp 226-237). -/
def respTypeText : ResponseType → String
  | .ACK => "ack"
  | .DATA => "data"
  | .ERROR => "error"

/-- One response envelope as assembled by `Protocol::sendResponse`
(protocol.cpp 219-248): `resp`, `id`, `status`, `data`, in that insertion
order. -/
structure Response where
  respType : ResponseType
  id : Int
  status : Nat
  data : JsonVal

/-- The serialized response line (`sendJsonDocument` without the trailing
newline). -/
def serializeResponse (r : Response) : String :=
  "\x7b\"resp\":\"" ++ respTypeText r.respType ++ "\",\"id\":" ++ toString r.id
    ++ ",\"status\":" ++ toString r.status ++ ",\"data\":"
    ++ serializeVal r.data ++ "\x7d"

/-- The fields `Protocol::processCommand` extracts from the incoming JSON
object (protocol.cpp 156-157, 182). -/
structure Cmd where
  name : String
  id : Int
  params : JsonVal
  raw : JsonVal

/-- `cmdName = command["cmd"].as<String>()`,
`cmdId = command["id"].as<int>()`,
`params = command["params"].as<JsonObject>()`. -/
def toCmd (v : JsonVal) : Cmd :=
  ⟨jsonAsString (jsonGet v "cmd"), jsonAsInt (jsonGet v "id"),
    jsonGet v "params", v⟩

/-- The outcome of invoking a C++ command handler: normal return with the
response object it filled in, a thrown `std::exception`, any other thrown
value (the `catch (...)` arm), or a call to the non-returning
`ESP.restart()`. -/
inductive HandlerStep where
  | ok (fw : Firmware) (data : JsonVal)
  | exn (fw : Firmware) (msg : String)
  | unknownExn (fw : Firmware)
  | restart (fw : Firmware)

/-- Did the handler invocation end in `ESP.restart()`? -/
def HandlerStep.endsInRestart : HandlerStep → Bool
  | .restart _ => true
  | _ => false

/-- A registered command handler: `(params, out response, rawCommand)`
acting on the firmware state. -/
def Handler : Type :=
  JsonVal → JsonVal → Firmware → HandlerStep

/-- The `commandHandlers` registry (`std::map<String, CommandHandler>`). -/
def lookupHandler (registry : List (String × Handler)) (name : String) :
    Option Handler :=
  assocFind registry name

/-- The observable result of one `Protocol::processCommand` call: the
firmware state afterwards, the response envelopes written to the transport
(in order), and how many handler invocations ran. -/
structure DispatchOut where
  fw : Firmware
  emitted : List Response
  handlerCalls : Nat

/-- `Protocol::processCommand` (protocol.cpp 153-217): unknown names get
one `INVALID_COMMAND` error envelope and no handler call; otherwise the
handler runs, a normal return is wrapped in one `DATA`/`SUCCESS` envelope,
a thrown fault is caught at this boundary and wrapped in one
`ERROR`/`EXECUTION_ERROR` envelope, and a restart inside the handler ends
the program before any envelope is sent. -/
def processCommandFw (registry : List (String × Handler)) (cmd : Cmd)
    (fw : Firmware) : DispatchOut :=
  match lookupHandler registry cmd.name with
  | none =>
      ⟨fw, [⟨.ERROR, cmd.id, StatusCode.INVALID_COMMAND.toNat,
        .str ("Unknown command: " ++ cmd.name)⟩], 0⟩
  | some h =>
      match h cmd.params cmd.raw fw with
      | .ok fw2 data =>
          ⟨fw2, [⟨.DATA, cmd.id, StatusCode.SUCCESS.toNat, data⟩], 1⟩
      | .exn fw2 msg =>
          ⟨fw2, [⟨.ERROR, cmd.id, StatusCode.EXECUTION_ERROR.toNat,
            .str ("Execution error: " ++ msg)⟩], 1⟩
      | .unknownExn fw2 =>
          ⟨fw2, [⟨.ERROR, cmd.id, StatusCode.EXECUTION_ERROR.toNat,
            .str "Unknown execution error"⟩], 1⟩
      | .restart fw2 => ⟨fw2, [], 1⟩

/-- The record-processing loop body of `Protocol::update` (protocol.cpp
68-93): a record that fails `deserializeJson` is dropped (`continue`), a
decoded document without a `cmd` member is dropped, anything else goes to
`processCommand`.  The JSON decode itself is the external ArduinoJson
library, so it enters the model as the already-decoded `Option JsonVal`. -/
def processRecordFw (registry : List (String × Handler)) (fw : Firmware)
    (decoded : Option JsonVal) : DispatchOut :=
  match decoded with
  | none => ⟨fw, [], 0⟩
  | some v =>
    if jsonHasKey v "cmd" then processCommandFw registry (toCmd v) fw
    else ⟨fw, [], 0⟩

/-! ## Command handlers — commands.cpp -/

/-- `handlePing` (commands.cpp 33-38). -/
def handlePing : Handler := fun _ _ fw =>
  .ok fw (.obj [("pong", .bool true), ("time", .num (fw.nowMs : Int))])

/-- `handleGetInfo` (commands.cpp 40-66). -/
def handleGetInfo : Handler := fun _ _ fw =>
  .ok fw (.obj [("name", .str DEVICE_NAME), ("version", .str FIRMWARE_VERSION),
    ("uptime", .num (fw.nowMs : Int)),
    ("hardware", .obj [("chip", .str "ESP32"), ("sdk", .str fw.sdkVersion),
      ("cpu_freq", .num (fw.cpuFreqMHz : Int)),
      ("flash_size", .num (fw.flashSizeKB : Int)),
      ("free_heap", .num (fw.freeHeap : Int))]),
    ("sensor", .obj ([("type", .str "AS7341"),
      ("connected", .bool fw.sensorConnected)]
      ++ (if fw.sensorConnected then [("config", fw.sensorConfig)] else [])))])

/-- `handleAs7341Init` (commands.cpp 68-79). -/
def handleAs7341Init : Handler := fun _ _ fw =>
  let success := fw.sensorBeginOk
  .ok fw (.obj ((if success then []
      else [("error", .str "Failed to initialize AS7341")])
    ++ [("initialized", .bool success)]))

/-- `handleAs7341Config` (commands.cpp 81-97).  The gain, integration time
and LED current extracted from `params` are consumed by the driver
collaborator `as7341.configure`, whose result is the `configureOk` oracle;
`getConfiguration` then appends the current configuration fields. -/
def handleAs7341Config : Handler := fun _ _ fw =>
  let success := fw.configureOk
  .ok fw (.obj ((if success then []
      else [("warning", .str "Some configuration parameters were invalid")])
    ++ jsonObjFields fw.sensorConfig))

/-- `handleAs7341Read` (commands.cpp 99-108): a failed spectral read
reports via an `error` field in an otherwise successful response. -/
def handleAs7341Read : Handler := fun _ _ fw =>
  let success := fw.readOk
  .ok fw (if success then fw.readData
    else .obj [("error", .str "Failed to read spectral data")])

/-- `handleAs7341Led` (commands.cpp 110-141). -/
def handleAs7341Led : Handler := fun params _ fw =>
  let enable := if jsonHasKey params "enabled"
    then jsonAsBool (jsonGet params "enabled") else false
  let current := if jsonHasKey params "current"
    then jsonAsUInt8 (jsonGet params "current") else DEFAULT_LED_CURRENT
  let useExternal := if jsonHasKey params "external"
    then jsonAsBool (jsonGet params "external") else false
  if useExternal then
    let r := setExternalLedFw fw enable
    .ok r.1 (.obj ([("type", .str "external")]
      ++ (if r.2 then [] else [("error", .str "Failed to control LED")])
      ++ [("enabled", .bool enable)]))
  else
    let r := setLedFw fw enable
    .ok r.1 (.obj ([("type", .str "onboard")]
      ++ (if r.2 then [] else [("error", .str "Failed to control LED")])
      ++ [("enabled", .bool enable), ("current", .num (current : Int))]))

/-- `handleStreamStart` (commands.cpp 143-179).  The nested stream `params`
object is copied in the C++ body but ignored by `startStream`, so the copy
is not modelled. -/
def handleStreamStart : Handler := fun params _ fw =>
  if !(jsonHasKey params "type") then
    .ok fw (.obj [("error", .str "Missing stream type")])
  else
    let t := jsonAsString (jsonGet params "type")
    let intervalMs := if jsonHasKey params "interval_ms"
      then jsonAsUInt32 (jsonGet params "interval_ms")
      else DEFAULT_STREAM_INTERVAL_MS
    let r := startStream fw.streams t intervalMs
    .ok { fw with streams := r.2 }
      (.obj ((if r.1 then [] else [("error", .str "Failed to start stream")])
        ++ [("type", .str t), ("interval_ms", .num (intervalMs : Int)),
          ("active", .bool r.1)]))

/-- `handleStreamStop` (commands.cpp 181-205). -/
def handleStreamStop : Handler := fun params _ fw =>
  if !(jsonHasKey params "type") then
    .ok fw (.obj [("error", .str "Missing stream type")])
  else
    let t := jsonAsString (jsonGet params "type")
    let wasActive := isStreamActive fw.streams t
    let r := stopStream fw.streams t
    .ok { fw with streams := r.2 }
      (.obj ((if !r.1 && wasActive
          then [("error", .str "Failed to stop stream")] else [])
        ++ [("type", .str t), ("was_active", .bool wasActive)]))

/-- `handleGetStreams` (commands.cpp 207-214). -/
def handleGetStreams : Handler := fun _ _ fw =>
  let streams := getActiveStreams fw.streams
  .ok fw (.obj [("streams", .arr streams),
    ("count", .num (streams.length : Int))])

/-- `handleResetDevice` (commands.cpp 216-232): stops all streams, turns
both LEDs off, writes `reset`/`message` fields into the pending response
object, delays, and then calls `ESP.restart()`.  The restart never
returns, so control never reaches the dispatcher's `sendResponse` and the
pending response fields are discarded. -/
def handleResetDevice : Handler := fun _ _ fw =>
  let fw1 := { fw with streams := stopAllStreams fw.streams }
  let fw2 := (setLedFw fw1 false).1
  let fw3 := (setExternalLedFw fw2 false).1
  .restart { fw3 with restarted := true }

/-- `handleDiagnostics` (commands.cpp 234-279).  The driver calls inside
the C++ `try` block are the `isConnected` oracle, which cannot throw in the
model, so the `catch (...)` arm is dead here. -/
def handleDiagnostics : Handler := fun _ _ fw =>
  let sensorStatus := if fw.sensorConnected then "pass" else "fail"
  let resultOk := ("pass" == "pass")
    && (sensorStatus == "pass" || !fw.sensorConnected)
    && ("pass" == "pass")
  .ok fw (.obj [("status", .str "running"), ("timestamp", .num (fw.nowMs : Int)),
    ("system", .obj [("free_heap", .num (fw.freeHeap : Int)),
      ("CPU_freq", .num (fw.cpuFreqMHz : Int)),
      ("flash_size", .num (fw.flashSizeKB : Int)),
      ("uptime_ms", .num (fw.nowMs : Int)), ("status", .str "pass")]),
    ("sensor", .obj [("connected", .bool fw.sensorConnected),
      ("status", .str sensorStatus)]),
    ("communication", .obj [("serial", .str "pass"), ("status", .str "pass")]),
    ("result", .str (if resultOk then "pass" else "fail"))])

/-- `registerCommands` (commands.cpp 12-30): the registry built once at
start-up, never mutated afterwards. -/
def firmwareRegistry : List (String × Handler) :=
  [("ping", handlePing), ("get_info", handleGetInfo),
   ("as7341_init", handleAs7341Init), ("as7341_config", handleAs7341Config),
   ("as7341_read", handleAs7341Read), ("as7341_led", handleAs7341Led),
   ("stream_start", handleStreamStart), ("stream_stop", handleStreamStop),
   ("get_streams", handleGetStreams), ("reset", handleResetDevice),
   ("diagnostics", handleDiagnostics)]

/-- A concrete healthy firmware state used by the concrete scenarios: the
sensor is connected, all collaborators succeed, one active `as7341` stream
exists and both LEDs are on. -/
def fwDemo : Firmware :=
  { nowMs := 0, sensorConnected := true, sensorBeginOk := true,
    readOk := true, sendOk := true, configureOk := true, setLedOk := true,
    setExtLedOk := true, sdkVersion := "v4.4.7", cpuFreqMHz := 240,
    flashSizeKB := 8192, freeHeap := 200000,
    sensorConfig := .obj [("gain", .num 5), ("integration_time", .num 100),
      ("led_current", .num 10)],
    readData := .obj [("F1", .num 100), ("F2", .num 200)],
    streams := [("as7341", ⟨"as7341", 100, 0, true⟩)],
    ledOn := true, externalLedOn := true, restarted := false }

/-- Wire input `{"cmd":"ping","id":7,"params":{}}` after JSON decode. -/
def pingCmdJson : JsonVal :=
  .obj [("cmd", .str "ping"), ("id", .num 7), ("params", .obj [])]

/-- Wire input `{"cmd":"nope","id":1}` after JSON decode. -/
def nopeCmdJson : JsonVal := .obj [("cmd", .str "nope"), ("id", .num 1)]

/-- Wire input `{"cmd":"reset","id":5}` after JSON decode. -/
def resetCmdJson : JsonVal := .obj [("cmd", .str "reset"), ("id", .num 5)]

/-- Wire input `{"cmd":"stream_start","id":2,"params":{"interval_ms":100}}`
(no `type` member) after JSON decode. -/
def streamStartNoTypeJson : JsonVal :=
  .obj [("cmd", .str "stream_start"), ("id", .num 2),
    ("params", .obj [("interval_ms", .num 100)])]

/-- Wire input `{"cmd":"as7341_read","id":3}` after JSON decode. -/
def as7341ReadCmdJson : JsonVal :=
  .obj [("cmd", .str "as7341_read"), ("id", .num 3)]

/-- A handler that throws, standing in for any registered handler whose
body raises during execution. -/
def throwingHandler : Handler := fun _ _ fw => .exn fw "sensor fault"

/-- A registry holding the throwing handler under the name `boom`. -/
def demoFaultRegistry : List (String × Handler) := [("boom", throwingHandler)]

/-- Wire input `{"cmd":"boom","id":9}` after JSON decode. -/
def boomCmdJson : JsonVal := .obj [("cmd", .str "boom"), ("id", .num 9)]

/-- A full map holding the three distinct stream types `a`, `b`, `c`. -/
def demoFullMap : StreamMap :=
  [("a", ⟨"a", 100, 0, true⟩), ("b", ⟨"b", 200, 50, false⟩),
   ("c", ⟨"c", 300, 0, true⟩)]

/-- The stream map created by an accepted
`stream_start(type="as7341", interval_ms=100)`. -/
def scenarioStreams : StreamMap := (startStream [] "as7341" 100).2

/-- The demo state with the sensor disconnected at `millis() = 200`. -/
def fwDisconnected : Firmware :=
  { fwDemo with sensorConnected := false, nowMs := 200 }

/-! ## Theorems -/

theorem feedChar_cr (s : Framer) : feedChar s '\r' = (s, none) := rfl

theorem feedChar_nl (s : Framer) :
    feedChar s '\n' =
      if 0 < s.buffer.length then (⟨[]⟩, some s.buffer) else (⟨[]⟩, none) := rfl

theorem feedChar_other (b : List Char) (c : Char) (h1 : c ≠ '\n') (h2 : c ≠ '\r') :
    feedChar ⟨b⟩ c =
      if b.length < JSON_BUFFER_SIZE - 1 then (⟨b ++ [c]⟩, none)
      else (⟨b⟩, none) := by
  simp [feedChar, h1, h2]

/-- Feeding a `\r` to the framer is a no-op, so a run over any input equals
the run over the `\r`-stripped input. -/
theorem runFramer_stripCR (cs : List Char) (s : Framer) :
    runFramer s cs = runFramer s (stripCR cs) := by
  induction cs generalizing s with
  | nil => rfl
  | cons c cs ih =>
    by_cases hc : c = '\r'
    · subst hc
      show consRecord (feedChar s '\r').2 (runFramer (feedChar s '\r').1 cs) = _
      rw [feedChar_cr]
      simpa [stripCR, consRecord] using ih s
    · have : stripCR (c :: cs) = c :: stripCR cs := by simp [stripCR, hc]
      rw [this]
      show consRecord (feedChar s c).2 (runFramer (feedChar s c).1 cs)
        = consRecord (feedChar s c).2 (runFramer (feedChar s c).1 (stripCR cs))
      rw [ih]

/-- A framer run distributes over concatenation of the input. -/
theorem runFramer_append (xs ys : List Char) (s : Framer) :
    runFramer s (xs ++ ys) =
      ((runFramer (runFramer s xs).1 ys).1,
        (runFramer s xs).2 ++ (runFramer (runFramer s xs).1 ys).2) := by
  induction xs generalizing s with
  | nil => simp [runFramer]
  | cons c xs ih =>
    show consRecord (feedChar s c).2 (runFramer (feedChar s c).1 (xs ++ ys)) = _
    rw [ih]
    simp [runFramer, consRecord, List.append_assoc]

/-- Feeding a newline-free, `\r`-free line into a buffer holding `b`:
the buffer accumulates the first `JSON_BUFFER_SIZE - 1 - b.length`
characters and silently discards the rest (protocol.cpp 45-48). -/
theorem runFramer_line (l : List Char) :
    ∀ b : List Char, (∀ c ∈ l, c ≠ '\n' ∧ c ≠ '\r') →
      b.length ≤ JSON_BUFFER_SIZE - 1 →
      runFramer ⟨b⟩ l = (⟨b ++ l.take (JSON_BUFFER_SIZE - 1 - b.length)⟩, []) := by
  induction l with
  | nil => intro b _ _; simp [runFramer]
  | cons c cs ih =>
    intro b hcl hb
    have hc : c ≠ '\n' ∧ c ≠ '\r' := hcl c (List.mem_cons_self c cs)
    have hcs : ∀ x ∈ cs, x ≠ '\n' ∧ x ≠ '\r' :=
      fun x hx => hcl x (List.mem_cons_of_mem c hx)
    show consRecord (feedChar ⟨b⟩ c).2 (runFramer (feedChar ⟨b⟩ c).1 cs) = _
    rw [feedChar_other b c hc.1 hc.2]
    by_cases hlt : b.length < JSON_BUFFER_SIZE - 1
    · rw [if_pos hlt]
      have hb2 : (b ++ [c]).length ≤ JSON_BUFFER_SIZE - 1 := by
        simp only [List.length_append, List.length_singleton]
        omega
      show consRecord none (runFramer ⟨b ++ [c]⟩ cs) = _
      rw [ih (b ++ [c]) hcs hb2]
      have harith : JSON_BUFFER_SIZE - 1 - b.length
          = (JSON_BUFFER_SIZE - 1 - (b ++ [c]).length) + 1 := by
        simp only [List.length_append, List.length_singleton]
        omega
      rw [harith, List.take_succ_cons]
      simp [consRecord]
    · rw [if_neg hlt]
      show consRecord none (runFramer ⟨b⟩ cs) = _
      rw [ih b hcs hb]
      have h0 : JSON_BUFFER_SIZE - 1 - b.length = 0 := by omega
      rw [h0]
      simp [consRecord]

/-- Running the framer over a sequence of nonempty newline-terminated lines
from an empty buffer emits each line truncated to the buffer capacity, and
leaves the buffer empty. -/
theorem runFramer_joinLines (ls : List (List Char))
    (h : ∀ l ∈ ls, l ≠ [] ∧ ∀ c ∈ l, c ≠ '\n' ∧ c ≠ '\r') :
    runFramer ⟨[]⟩ (joinLines ls)
      = (⟨[]⟩, ls.map (fun l => l.take (JSON_BUFFER_SIZE - 1))) := by
  induction ls with
  | nil => rfl
  | cons l ls ih =>
    have hl := h l (List.mem_cons_self l ls)
    have hls : ∀ x ∈ ls, x ≠ [] ∧ ∀ c ∈ x, c ≠ '\n' ∧ c ≠ '\r' :=
      fun x hx => h x (List.mem_cons_of_mem l hx)
    have hjoin : joinLines (l :: ls) = (l ++ ['\n']) ++ joinLines ls := by
      simp [joinLines]
    rw [hjoin, runFramer_append]
    have hline : runFramer ⟨[]⟩ (l ++ ['\n'])
        = (⟨[]⟩, [l.take (JSON_BUFFER_SIZE - 1)]) := by
      rw [runFramer_append]
      rw [runFramer_line l [] hl.2 (by simp)]
      have htk : 0 < (l.take (JSON_BUFFER_SIZE - 1)).length := by
        have : l ≠ [] := hl.1
        have hpos : 0 < l.length := List.length_pos.mpr this
        simp only [List.length_take]
        have : 0 < JSON_BUFFER_SIZE - 1 := by decide
        omega
      show consRecord (feedChar ⟨[] ++ l.take (JSON_BUFFER_SIZE - 1)⟩ '\n').2
          (runFramer (feedChar ⟨[] ++ l.take (JSON_BUFFER_SIZE - 1)⟩ '\n').1 []) = _
      rw [feedChar_nl]
      simp only [List.nil_append]
      rw [if_pos htk]
      simp [consRecord, runFramer]
    rw [hline, ih hls]
    simp

/-- The no-overflow case: a line at most the buffer capacity long is
emitted in full. -/
theorem runFramer_joinLines_short (ls : List (List Char))
    (h : ∀ l ∈ ls, l ≠ [] ∧ ∀ c ∈ l, c ≠ '\n' ∧ c ≠ '\r')
    (hshort : ∀ l ∈ ls, l.length ≤ JSON_BUFFER_SIZE - 1) :
    runFramer ⟨[]⟩ (joinLines ls) = (⟨[]⟩, ls) := by
  rw [runFramer_joinLines ls h]
  congr 1
  have : List.map (fun l => List.take (JSON_BUFFER_SIZE - 1) l) ls
      = List.map (fun l => l) ls :=
    List.map_congr_left fun l hl => List.take_of_length_le (hshort l hl)
  rw [this]
  simp

/-- C4 (amended): for every byte sequence whose `\r`-stripped form is a
concatenation of nonempty newline-terminated lines (no empty lines, no
unterminated trailing bytes), the framer emits exactly those lines with
each line truncated to the buffer capacity of `JSON_BUFFER_SIZE - 1`
characters, so the concatenation of the emitted records with newline
separators reinserted reconstructs the `\r`-stripped input with over-long
lines truncated; when no line exceeds the capacity it reconstructs the
`\r`-stripped input exactly. -/
theorem framer_records_reconstruct_input (input : List Char)
    (ls : List (List Char))
    (hdecomp : stripCR input = joinLines ls)
    (hlines : ∀ l ∈ ls, l ≠ [] ∧ ∀ c ∈ l, c ≠ '\n' ∧ c ≠ '\r') :
    joinLines (runFramer ⟨[]⟩ input).2
        = joinLines (ls.map (fun l => l.take (JSON_BUFFER_SIZE - 1)))
    ∧ ((∀ l ∈ ls, l.length ≤ JSON_BUFFER_SIZE - 1) →
        joinLines (runFramer ⟨[]⟩ input).2 = stripCR input) := by
  constructor
  · rw [runFramer_stripCR, hdecomp, runFramer_joinLines ls hlines]
  · intro hshort
    rw [runFramer_stripCR, hdecomp, runFramer_joinLines_short ls hlines hshort]

/-- C4 counterexample: as stated (reconstruction modulo only `\r`-stripping
and overflow truncation) the claim fails.  Input `"a"` (no terminator, no
overflow, no `\r`) emits no record at all, and input `"a\n\n"` drops the
empty second line; in both cases the emitted records do not reconstruct the
`\r`-stripped input. -/
theorem framer_records_reconstruct_input_cex :
    joinLines (runFramer ⟨[]⟩ ['a']).2 ≠ stripCR ['a']
    ∧ joinLines (runFramer ⟨[]⟩ ['a', '\n', '\n']).2 ≠ stripCR ['a', '\n', '\n'] := by
  decide

/-- Witness for `framer_records_reconstruct_input` at the concrete input
`"ab\r\nc\n"`. -/
theorem framer_records_reconstruct_input_witness :
    stripCR ['a', 'b', '\r', '\n', 'c', '\n'] = joinLines [['a', 'b'], ['c']]
    ∧ joinLines (runFramer ⟨[]⟩ ['a', 'b', '\r', '\n', 'c', '\n']).2
        = stripCR ['a', 'b', '\r', '\n', 'c', '\n'] :=
  ⟨by decide,
    (framer_records_reconstruct_input ['a', 'b', '\r', '\n', 'c', '\n']
      [['a', 'b'], ['c']] (by decide) (by decide)).2 (by decide)⟩

theorem lookupStream_insert_self (m : StreamMap) (t : String) (s : DataStream) :
    lookupStream (insertStream m t s) t = some s := by
  induction m with
  | nil => simp [lookupStream, insertStream, assocFind]
  | cons e rest ih =>
    obtain ⟨k, v⟩ := e
    by_cases h : t = k <;>
      simp [lookupStream, insertStream, assocFind, h] <;>
      simpa [lookupStream] using ih

theorem lookupStream_insert_other (m : StreamMap) (t : String) (s : DataStream)
    (k : String) (h : k ≠ t) :
    lookupStream (insertStream m t s) k = lookupStream m k := by
  induction m with
  | nil => simp [lookupStream, insertStream, assocFind, h]
  | cons e rest ih =>
    obtain ⟨k2, v⟩ := e
    by_cases h2 : t = k2
    · subst h2
      simp [lookupStream, insertStream, assocFind, h]
    · by_cases h3 : k = k2 <;>
        simp [lookupStream, insertStream, assocFind, h2, h3] <;>
        simpa [lookupStream] using ih

theorem length_insert_present (m : StreamMap) (t : String) (s : DataStream)
    (h : lookupStream m t ≠ none) :
    (insertStream m t s).length = m.length := by
  induction m with
  | nil => simp [lookupStream, assocFind] at h
  | cons e rest ih =>
    obtain ⟨k, v⟩ := e
    by_cases h2 : t = k
    · simp [insertStream, h2]
    · have : lookupStream rest t ≠ none := by
        simpa [lookupStream, assocFind, h2] using h
      simp [insertStream, h2, ih this]

theorem streamKeys_insert_present (m : StreamMap) (t : String) (s : DataStream)
    (h : lookupStream m t ≠ none) :
    streamKeys (insertStream m t s) = streamKeys m := by
  induction m with
  | nil => simp [lookupStream, assocFind] at h
  | cons e rest ih =>
    obtain ⟨k, v⟩ := e
    by_cases h2 : t = k
    · simp [insertStream, streamKeys, h2]
    · have : lookupStream rest t ≠ none := by
        simpa [lookupStream, assocFind, h2] using h
      simp [insertStream, streamKeys, h2]
      simpa [streamKeys] using ih this

theorem length_insert_absent (m : StreamMap) (t : String) (s : DataStream)
    (h : lookupStream m t = none) :
    (insertStream m t s).length = m.length + 1 := by
  induction m with
  | nil => simp [insertStream]
  | cons e rest ih =>
    obtain ⟨k, v⟩ := e
    by_cases h2 : t = k
    · simp [lookupStream, assocFind, h2] at h
    · have : lookupStream rest t = none := by
        simpa [lookupStream, assocFind, h2] using h
      simp [insertStream, h2, ih this]

/-- A key that is absent is not filtered out by `eraseStream`. -/
theorem eraseStream_of_lookup_none (m : StreamMap) (t : String)
    (h : lookupStream m t = none) : eraseStream m t = m := by
  induction m with
  | nil => rfl
  | cons e rest ih =>
    obtain ⟨k, v⟩ := e
    by_cases h2 : t = k
    · simp [lookupStream, assocFind, h2] at h
    · have hr : lookupStream rest t = none := by
        simpa [lookupStream, assocFind, h2] using h
      have hkt : ((k, v).1 != t) = true := by
        simp only [bne_iff_ne, ne_eq]
        exact fun hh => h2 hh.symm
      have htail := ih hr
      simp only [eraseStream] at htail
      simp [eraseStream, List.filter_cons, hkt, htail]

/-- Erasing every key of a map empties it
(`StreamingManager::stopAllStreams`). -/
theorem stopAllStreams_eq_nil (m : StreamMap) : stopAllStreams m = [] := by
  have hstop : ∀ (acc : StreamMap) (t : String),
      (stopStream acc t).2 = eraseStream acc t := by
    intro acc t
    by_cases h : lookupStream acc t = none
    · rw [stopStream, if_pos h, eraseStream_of_lookup_none acc t h]
    · rw [stopStream, if_neg h]
  have main : ∀ (ks : List String) (acc : StreamMap),
      (∀ e ∈ acc, e.1 ∈ ks) →
      ks.foldl (fun acc t => (stopStream acc t).2) acc = [] := by
    intro ks
    induction ks with
    | nil =>
      intro acc hacc
      match acc with
      | [] => rfl
      | e :: rest => exact absurd (hacc e (List.mem_cons_self e rest)) (by simp)
    | cons k ks ih =>
      intro acc hacc
      simp only [List.foldl_cons]
      apply ih
      intro e he
      rw [hstop] at he
      simp only [eraseStream, List.mem_filter, bne_iff_ne, ne_eq,
        decide_eq_true_eq] at he
      rcases List.mem_cons.mp (hacc e he.1) with hcase | hcase
      · exact absurd hcase he.2
      · exact hcase
  exact main (streamKeys m) m (fun e he => List.mem_map_of_mem _ he)

/-- The tick maps `tickOne` over the entries, touching keys not at all. -/
theorem tickStreams_fst (fw : Firmware) (m : StreamMap) :
    (tickStreams fw m).1 = m.map (fun e => (e.1, (tickOne fw e.2).1)) := by
  induction m with
  | nil => rfl
  | cons e rest ih =>
    obtain ⟨k, s⟩ := e
    simp [tickStreams, ih]

/-- `uint32` subtraction agrees with `Nat` subtraction below the wraparound
point. -/
theorem u32sub_of_le (a b : Nat) (hba : b ≤ a) (ha : a < U32) :
    u32sub a b = a - b := by
  simp only [u32sub, U32] at *
  omega

/-- A producer that reports failure has emitted nothing
(each failing branch of `updateAs7341Stream` returns before `sendData`
succeeds, and unknown types emit nothing). -/
theorem updateStream_fail_no_emission (fw : Firmware) (s : DataStream)
    (h : (updateStream fw s).1 = false) : (updateStream fw s).2 = [] := by
  cases hs : fw.sensorConnected <;> cases hr : fw.readOk <;>
    cases hw : fw.sendOk <;> by_cases ht : s.type = "as7341" <;>
    simp_all [updateStream, updateAs7341Stream]

/-! ## Claim theorems -/

/-- C1 (amended): for every command whose name is present in the registry,
if the handler invocation terminates (returns normally or raises a caught
fault — i.e. does not restart the device, as the firmware's own `reset`
handler does), `processCommand` emits exactly one reply envelope, that
envelope's `id` equals the command's `id`, and a normally-returning handler
yields a `DATA` envelope with status `SUCCESS` carrying the handler's
response data. -/
theorem dispatch_accepted_single_reply (registry : List (String × Handler))
    (cmd : Cmd) (fw : Firmware) (h : Handler)
    (hfound : lookupHandler registry cmd.name = some h)
    (hnr : (h cmd.params cmd.raw fw).endsInRestart = false) :
    (processCommandFw registry cmd fw).emitted.length = 1
    ∧ (∀ r ∈ (processCommandFw registry cmd fw).emitted, r.id = cmd.id)
    ∧ (∀ fw2 d, h cmd.params cmd.raw fw = .ok fw2 d →
        (processCommandFw registry cmd fw).emitted
          = [⟨.DATA, cmd.id, StatusCode.SUCCESS.toNat, d⟩]) := by
  cases hstep : h cmd.params cmd.raw fw with
  | restart fw2 =>
    rw [hstep] at hnr
    simp [HandlerStep.endsInRestart] at hnr
  | ok fw2 d =>
    refine ⟨?_, ?_, ?_⟩ <;> simp [processCommandFw, hfound, hstep]
  | exn fw2 msg =>
    refine ⟨?_, ?_, ?_⟩ <;> simp [processCommandFw, hfound, hstep]
  | unknownExn fw2 =>
    refine ⟨?_, ?_, ?_⟩ <;> simp [processCommandFw, hfound, hstep]

/-- C1 counterexample: `reset` is present in the firmware registry, yet
dispatching it emits no reply envelope at all — the handler calls
`ESP.restart()` before the dispatcher can send the success response. -/
theorem dispatch_accepted_single_reply_cex :
    (lookupHandler firmwareRegistry (toCmd resetCmdJson).name).isSome = true
    ∧ (processCommandFw firmwareRegistry (toCmd resetCmdJson) fwDemo).emitted.length ≠ 1 :=
  ⟨rfl, by decide⟩

/-- Witness for `dispatch_accepted_single_reply`: the spec scenario
`{"cmd":"ping","id":7,"params":{}}` yields exactly the envelope
`{"resp":"data","id":7,"status":0,"data":{"pong":true,"time":0}}`. -/
theorem dispatch_accepted_single_reply_witness :
    (processCommandFw firmwareRegistry (toCmd pingCmdJson) fwDemo).emitted
      = [⟨.DATA, 7, StatusCode.SUCCESS.toNat,
          .obj [("pong", .bool true), ("time", .num 0)]⟩] :=
  (dispatch_accepted_single_reply firmwareRegistry (toCmd pingCmdJson) fwDemo
      handlePing rfl rfl).2.2 fwDemo
    (.obj [("pong", .bool true), ("time", .num 0)]) rfl

/-- C2: what the code does on a dispatched `reset` command.  The handler
does stop all streams and disable both LEDs, but it restarts the device
inside the handler body, so the dispatcher's `sendResponse` is never
reached: no success response is flushed to the transport before the
restart. -/
theorem reset_restarts_before_reply :
    (lookupHandler firmwareRegistry "reset").isSome = true
    ∧ (processCommandFw firmwareRegistry (toCmd resetCmdJson) fwDemo).emitted
        = ([] : List Response)
    ∧ (processCommandFw firmwareRegistry (toCmd resetCmdJson) fwDemo).fw.restarted = true
    ∧ (processCommandFw firmwareRegistry (toCmd resetCmdJson) fwDemo).fw.streams = []
    ∧ (processCommandFw firmwareRegistry (toCmd resetCmdJson) fwDemo).fw.ledOn = false
    ∧ (processCommandFw firmwareRegistry (toCmd resetCmdJson) fwDemo).fw.externalLedOn = false :=
  ⟨rfl, rfl, rfl, rfl, rfl, rfl⟩

/-- C5: a command whose name is absent from the registry produces exactly
one `ERROR` envelope with status `INVALID_COMMAND` (1), the command's `id`
and the message naming the offending command; no handler is invoked and the
firmware state is untouched.  The concrete scenario
`{"cmd":"nope","id":1}` serializes to exactly
`{"resp":"error","id":1,"status":1,"data":"Unknown command: nope"}`. -/
theorem unknown_command_invalid_response :
    (∀ (registry : List (String × Handler)) (cmd : Cmd) (fw : Firmware),
      lookupHandler registry cmd.name = none →
      processCommandFw registry cmd fw
        = ⟨fw, [⟨.ERROR, cmd.id, StatusCode.INVALID_COMMAND.toNat,
            .str ("Unknown command: " ++ cmd.name)⟩], 0⟩)
    ∧ (processRecordFw firmwareRegistry fwDemo (some nopeCmdJson)).emitted.map
        serializeResponse
      = ["\x7b\"resp\":\"error\",\"id\":1,\"status\":1,\"data\":\"Unknown command: nope\"\x7d"]
    ∧ (processRecordFw firmwareRegistry fwDemo (some nopeCmdJson)).handlerCalls = 0
    ∧ (processRecordFw firmwareRegistry fwDemo (some nopeCmdJson)).fw = fwDemo := by
  refine ⟨?_, rfl, rfl, rfl⟩
  intro registry cmd fw hnone
  simp [processCommandFw, hnone]

/-- Witness for `unknown_command_invalid_response` at the registry of the
firmware and the decoded input `{"cmd":"nope","id":1}`. -/
theorem unknown_command_invalid_response_witness :
    processCommandFw firmwareRegistry (toCmd nopeCmdJson) fwDemo
      = ⟨fwDemo, [⟨.ERROR, 1, StatusCode.INVALID_COMMAND.toNat,
          .str "Unknown command: nope"⟩], 0⟩ :=
  unknown_command_invalid_response.1 firmwareRegistry (toCmd nopeCmdJson) fwDemo rfl

/-- C6: a fault raised by a registered handler is caught at the dispatcher
boundary and converted into exactly one `ERROR` envelope with status
`EXECUTION_ERROR` (3), the command's `id` and a message as data — both for
a `std::exception` (whose message is prefixed `Execution error: `) and for
any other thrown value (`catch (...)`).  Dispatch still returns normally
with that single envelope, so the fault never propagates to the main
loop. -/
theorem handler_fault_contained (registry : List (String × Handler))
    (cmd : Cmd) (fw : Firmware) (h : Handler)
    (hfound : lookupHandler registry cmd.name = some h) :
    (∀ fw2 msg, h cmd.params cmd.raw fw = .exn fw2 msg →
      processCommandFw registry cmd fw
        = ⟨fw2, [⟨.ERROR, cmd.id, StatusCode.EXECUTION_ERROR.toNat,
            .str ("Execution error: " ++ msg)⟩], 1⟩)
    ∧ (∀ fw2, h cmd.params cmd.raw fw = .unknownExn fw2 →
      processCommandFw registry cmd fw
        = ⟨fw2, [⟨.ERROR, cmd.id, StatusCode.EXECUTION_ERROR.toNat,
            .str "Unknown execution error"⟩], 1⟩) := by
  constructor
  · intro fw2 msg hstep
    simp [processCommandFw, hfound, hstep]
  · intro fw2 hstep
    simp [processCommandFw, hfound, hstep]

/-- Witness for `handler_fault_contained` at a concrete throwing handler. -/
theorem handler_fault_contained_witness :
    processCommandFw demoFaultRegistry (toCmd boomCmdJson) fwDemo
      = ⟨fwDemo, [⟨.ERROR, 9, StatusCode.EXECUTION_ERROR.toNat,
          .str "Execution error: sensor fault"⟩], 1⟩ :=
  (handler_fault_contained demoFaultRegistry (toCmd boomCmdJson) fwDemo
      throwingHandler rfl).1 fwDemo "sensor fault" rfl

/-- C7: an input record that fails to decode, or that decodes to a
document without a `cmd` member, is silently dropped: no envelope is
emitted, no handler is invoked, and the firmware state is untouched. -/
theorem malformed_record_dropped :
    (∀ (registry : List (String × Handler)) (fw : Firmware),
      processRecordFw registry fw none = ⟨fw, [], 0⟩)
    ∧ (∀ (registry : List (String × Handler)) (fw : Firmware) (v : JsonVal),
      jsonHasKey v "cmd" = false →
      processRecordFw registry fw (some v) = ⟨fw, [], 0⟩) := by
  constructor
  · intro registry fw
    rfl
  · intro registry fw v hk
    simp [processRecordFw, hk]

/-- Witness for `malformed_record_dropped`: a decoded object without `cmd`
and a decoded non-object are both dropped. -/
theorem malformed_record_dropped_witness :
    processRecordFw firmwareRegistry fwDemo (some (.obj [("foo", .num 1)]))
      = ⟨fwDemo, [], 0⟩
    ∧ processRecordFw firmwareRegistry fwDemo (some (.num 42)) = ⟨fwDemo, [], 0⟩ :=
  ⟨malformed_record_dropped.2 firmwareRegistry fwDemo (.obj [("foo", .num 1)]) rfl,
   malformed_record_dropped.2 firmwareRegistry fwDemo (.num 42) rfl⟩

/-- C10: every response envelope the dispatcher emits has status
`SUCCESS` (0), `INVALID_COMMAND` (1) or `EXECUTION_ERROR` (3) — the
statuses 2, 4, 5 and 6 are unreachable.  A handler-detected failure that
does not throw is reported as a status-0 `DATA` envelope whose payload
carries an `error` field: concretely for `stream_start` without a `type`
parameter and for `as7341_read` with a failing sensor read. -/
theorem emitted_status_codes :
    (∀ (registry : List (String × Handler)) (cmd : Cmd) (fw : Firmware),
      ((processCommandFw registry cmd fw).emitted.all
        (fun r => r.status == 0 || r.status == 1 || r.status == 3)) = true)
    ∧ (processCommandFw firmwareRegistry (toCmd streamStartNoTypeJson) fwDemo).emitted
      = [⟨.DATA, 2, StatusCode.SUCCESS.toNat,
          .obj [("error", .str "Missing stream type")]⟩]
    ∧ (processCommandFw firmwareRegistry (toCmd as7341ReadCmdJson)
        { fwDemo with readOk := false }).emitted
      = [⟨.DATA, 3, StatusCode.SUCCESS.toNat,
          .obj [("error", .str "Failed to read spectral data")]⟩] := by
  refine ⟨?_, rfl, rfl⟩
  intro registry cmd fw
  unfold processCommandFw
  cases hl : lookupHandler registry cmd.name with
  | none => rfl
  | some h =>
    cases hstep : h cmd.params cmd.raw fw <;> simp [hstep, StatusCode.toNat]

/-- C8: the stream map never exceeds the capacity cap.  Starting an
already-present type succeeds and updates it in place — same key set, same
size, the entry now holds the clamped interval, `lastUpdateMs = 0` and
`active = true`, all other entries untouched.  Starting a new type when the
count of distinct types already equals `MAX_DATA_STREAMS` is rejected with
`false` and the map is left exactly as it was.  Any `startStream` call
preserves `length ≤ MAX_DATA_STREAMS`. -/
theorem stream_capacity_invariant (m : StreamMap) (t : String) (i : Nat) :
    (∀ s0, lookupStream m t = some s0 →
      (startStream m t i).1 = true
      ∧ streamKeys (startStream m t i).2 = streamKeys m
      ∧ (startStream m t i).2.length = m.length
      ∧ lookupStream (startStream m t i).2 t = some ⟨t, clampInterval i, 0, true⟩
      ∧ ∀ k, k ≠ t → lookupStream (startStream m t i).2 k = lookupStream m k)
    ∧ (lookupStream m t = none → MAX_DATA_STREAMS ≤ m.length →
      startStream m t i = (false, m))
    ∧ (m.length ≤ MAX_DATA_STREAMS →
      (startStream m t i).2.length ≤ MAX_DATA_STREAMS) := by
  refine ⟨?_, ?_, ?_⟩
  · intro s0 hs
    have hne : lookupStream m t ≠ none := by rw [hs]; simp
    have hcond : ¬(MAX_DATA_STREAMS ≤ m.length ∧ lookupStream m t = none) :=
      fun hc => hne hc.2
    unfold startStream
    rw [if_neg hcond]
    exact ⟨rfl, streamKeys_insert_present m t _ hne,
      length_insert_present m t _ hne, lookupStream_insert_self m t _,
      fun k hk => lookupStream_insert_other m t _ k hk⟩
  · intro hnone hfull
    unfold startStream
    rw [if_pos ⟨hfull, hnone⟩]
  · intro hlen
    by_cases hcond : MAX_DATA_STREAMS ≤ m.length ∧ lookupStream m t = none
    · unfold startStream
      rw [if_pos hcond]
      exact hlen
    · unfold startStream
      rw [if_neg hcond]
      by_cases habs : lookupStream m t = none
      · have hlt : m.length < MAX_DATA_STREAMS := by
          rcases Nat.lt_or_ge m.length MAX_DATA_STREAMS with hlt | hge
          · exact hlt
          · exact absurd ⟨hge, habs⟩ hcond
        have := length_insert_absent m t ⟨t, clampInterval i, 0, true⟩ habs
        simp only []
        omega
      · have := length_insert_present m t ⟨t, clampInterval i, 0, true⟩ habs
        simp only []
        omega

/-- Witness for `stream_capacity_invariant`: at the cap of 3, restarting
the existing type `b` succeeds without growing the map, while starting the
new type `d` is rejected and leaves the map untouched. -/
theorem stream_capacity_invariant_witness :
    startStream demoFullMap "d" 100 = (false, demoFullMap)
    ∧ (startStream demoFullMap "b" 500).1 = true
    ∧ (startStream demoFullMap "b" 500).2.length = demoFullMap.length
    ∧ lookupStream (startStream demoFullMap "b" 500).2 "b"
        = some ⟨"b", 500, 0, true⟩ :=
  ⟨(stream_capacity_invariant demoFullMap "d" 100).2.1 rfl (by decide),
   ((stream_capacity_invariant demoFullMap "b" 500).1 ⟨"b", 200, 50, false⟩ rfl).1,
   ((stream_capacity_invariant demoFullMap "b" 500).1 ⟨"b", 200, 50, false⟩ rfl).2.2.1,
   ((stream_capacity_invariant demoFullMap "b" 500).1 ⟨"b", 200, 50, false⟩ rfl).2.2.2.1⟩

/-- C3 (amended): an accepted `start` resets the entry's `lastFireMs` to
the sentinel 0, and with that sentinel a stream is due at a tick exactly
when `now ≥ intervalMs` — the sentinel forces an immediate fire on the
next tick whenever at least `intervalMs` milliseconds of uptime have
passed, but not before.  In the concrete scenario (`as7341`,
`interval_ms=100`, sensor connected), the ticks at `now=0` and `now=50` do
not fire and the tick at `now=100` fires once. -/
theorem stream_start_resets_fire_clock (m : StreamMap) (t : String) (i : Nat) :
    ((startStream m t i).1 = true →
      lookupStream (startStream m t i).2 t = some ⟨t, clampInterval i, 0, true⟩)
    ∧ (∀ (s : DataStream) (now : Nat), s.lastUpdateMs = 0 → now < U32 →
        (s.intervalMs ≤ u32sub now s.lastUpdateMs ↔ s.intervalMs ≤ now))
    ∧ tickStreams { fwDemo with nowMs := 0 } scenarioStreams
        = (scenarioStreams, [])
    ∧ tickStreams { fwDemo with nowMs := 50 } scenarioStreams
        = (scenarioStreams, [])
    ∧ tickStreams { fwDemo with nowMs := 100 } scenarioStreams
        = ([("as7341", ⟨"as7341", 100, 100, true⟩)],
           [⟨"as7341", 100, fwDemo.readData⟩]) := by
  refine ⟨?_, ?_, rfl, rfl, rfl⟩
  · intro h1
    by_cases hcond : MAX_DATA_STREAMS ≤ m.length ∧ lookupStream m t = none
    · unfold startStream at h1
      rw [if_pos hcond] at h1
      exact absurd h1 (by simp)
    · unfold startStream
      rw [if_neg hcond]
      exact lookupStream_insert_self m t _
  · intro s now h0 hlt
    rw [h0, u32sub_of_le now 0 (Nat.zero_le now) hlt, Nat.sub_zero]

/-- C3 counterexample: after the accepted `stream_start` the stream is
present and active with the sentinel `lastFireMs = 0`, the sensor is
connected and every collaborator succeeds, yet the tick at `now = 0`
emits nothing and leaves the stream untouched — it does not fire
immediately as claimed, because `0 - 0 = 0 < 100`. -/
theorem stream_start_resets_fire_clock_cex :
    (startStream [] "as7341" 100).1 = true
    ∧ isStreamActive scenarioStreams "as7341" = true
    ∧ ({ fwDemo with nowMs := 0 }).sensorConnected = true
    ∧ (tickStreams { fwDemo with nowMs := 0 } scenarioStreams).2 = []
    ∧ (tickStreams { fwDemo with nowMs := 0 } scenarioStreams).1
        = scenarioStreams :=
  ⟨rfl, rfl, rfl, rfl, rfl⟩

/-- Witness for `stream_start_resets_fire_clock` at the scenario's
concrete start call and at `now = 100`. -/
theorem stream_start_resets_fire_clock_witness :
    lookupStream scenarioStreams "as7341" = some ⟨"as7341", 100, 0, true⟩
    ∧ ((100 : Nat) ≤ u32sub 100 0 ↔ (100 : Nat) ≤ 100) :=
  ⟨(stream_start_resets_fire_clock [] "as7341" 100).1 rfl,
   (stream_start_resets_fire_clock [] "as7341" 100).2.1
     ⟨"as7341", 100, 0, true⟩ 100 rfl (by decide)⟩

/-- C9: on a scheduler tick, a due active stream advances `lastFireMs` to
the tick's `now` only when the producer reports success.  When the
producer fails (sensor disconnected, read fault, or transport write
fault), the loop body emits no data envelope and leaves the entry
unchanged in the map, so the stream is due again at every later tick
until one succeeds. -/
theorem due_stream_retry_semantics (fw : Firmware) (m : StreamMap)
    (k : String) (s : DataStream) (hmem : (k, s) ∈ m) (hact : s.active = true)
    (hdue : s.intervalMs ≤ u32sub fw.nowMs s.lastUpdateMs) :
    ((updateStream fw s).1 = false →
      tickOne fw s = (s, [])
      ∧ (k, s) ∈ (tickStreams fw m).1
      ∧ ∀ now2, fw.nowMs ≤ now2 → now2 < U32 → s.lastUpdateMs ≤ fw.nowMs →
          s.intervalMs ≤ u32sub now2 s.lastUpdateMs)
    ∧ ((updateStream fw s).1 = true →
      tickOne fw s = ({ s with lastUpdateMs := fw.nowMs }, (updateStream fw s).2)
      ∧ (k, { s with lastUpdateMs := fw.nowMs }) ∈ (tickStreams fw m).1) := by
  constructor
  · intro hfail
    have hone : tickOne fw s = (s, []) := by
      unfold tickOne
      rw [hact]
      simp [hdue, hfail, updateStream_fail_no_emission fw s hfail]
    refine ⟨hone, ?_, ?_⟩
    · rw [tickStreams_fst]
      have hmap := List.mem_map_of_mem
        (fun e => (e.1, (tickOne fw e.2).1)) hmem
      simpa [hone] using hmap
    · intro now2 h1 h2 h3
      have hnow : fw.nowMs < U32 := Nat.lt_of_le_of_lt h1 h2
      have heq1 : u32sub fw.nowMs s.lastUpdateMs = fw.nowMs - s.lastUpdateMs :=
        u32sub_of_le fw.nowMs s.lastUpdateMs h3 hnow
      have heq2 : u32sub now2 s.lastUpdateMs = now2 - s.lastUpdateMs :=
        u32sub_of_le now2 s.lastUpdateMs (Nat.le_trans h3 h1) h2
      rw [heq2]
      rw [heq1] at hdue
      omega
  · intro hsucc
    have hone : tickOne fw s
        = ({ s with lastUpdateMs := fw.nowMs }, (updateStream fw s).2) := by
      unfold tickOne
      rw [hact]
      simp [hdue, hsucc]
    refine ⟨hone, ?_⟩
    rw [tickStreams_fst]
    have hmap := List.mem_map_of_mem
      (fun e => (e.1, (tickOne fw e.2).1)) hmem
    simpa [hone] using hmap

/-- Witness for `due_stream_retry_semantics`: a due active `as7341` stream
whose producer fails because the sensor is disconnected keeps its entry
unchanged and emits nothing. -/
theorem due_stream_retry_semantics_witness :
    tickOne fwDisconnected ⟨"as7341", 100, 0, true⟩
      = (⟨"as7341", 100, 0, true⟩, [])
    ∧ ("as7341", (⟨"as7341", 100, 0, true⟩ : DataStream)) ∈
        (tickStreams fwDisconnected
          [("as7341", ⟨"as7341", 100, 0, true⟩)]).1 :=
  ⟨((due_stream_retry_semantics fwDisconnected
        [("as7341", ⟨"as7341", 100, 0, true⟩)] "as7341"
        ⟨"as7341", 100, 0, true⟩ (by decide) rfl (by decide)).1 rfl).1,
   ((due_stream_retry_semantics fwDisconnected
        [("as7341", ⟨"as7341", 100, 0, true⟩)] "as7341"
        ⟨"as7341", 100, 0, true⟩ (by decide) rfl (by decide)).1 rfl).2.1⟩

end SpectroNeph
